import Mathlib

/-!
Verification of the mobile input-request broker of the thought_traveller_listener
repository (src/monitoring.ts, with the HTTP result construction from src/server.ts).

The broker state (`BrokerState`) is a shallow embedding of the mutable fields of
`MonitoringManager`: the connected-client map, the pending-input-request map, the
durable APNs token map, the APNs provider handle (abstracted to a Bool flag), the
heartbeat interval handle (a Bool flag), and the configured input timeout.

Promises are modelled by a settlement ledger: `settlements` records, in order,
every call to a pending request's `resolve`/`reject` continuation.  Armed
deadline timers are modelled by the `timersArmed` list: `setTimeout` adds the
request id, `clearTimeout` removes it, and the timer callback (`fireTimeout`)
can only run while the id is still armed.  Outgoing WebSocket sends, channel
closures and push-adapter invocations are recorded in observation logs
(`sentMessages`, `closedChannels`, `pushAttempts`).  Wall-clock timestamp fields
(`startTime`, `lastSeen`, `createdAt`) are abstracted away; no claim concerns
them.  The third-party APNs provider is an oracle parameter
(`providerSend : String → ApnsSendResult`) whose outcome may be a thrown error,
mirroring that `apnsProvider.send` can reject.
-/

namespace Monitoring

/-- `'numeric' | 'yesno' | 'text'` from types.ts. -/
inductive InputType where
  | numeric
  | yesno
  | text
deriving DecidableEq

/-- `'active' | 'disconnected'` session status from types.ts. -/
inductive SessionStatus where
  | active
  | disconnected
deriving DecidableEq

/-- `MonitoringSession` (types.ts), without the wall-clock `startTime`/`lastSeen`. -/
structure MonitoringSession where
  deviceId : String
  deviceName : String
  apnsToken : Option String
  status : SessionStatus
  reconnectAttempts : Nat
deriving DecidableEq

/-- `ConnectedClient` (monitoring.ts): the WebSocket handle is abstracted to a
numeric identity `wsId` plus its open/closed readyState `wsOpen`. -/
structure ConnectedClient where
  wsId : Nat
  wsOpen : Bool
  session : MonitoringSession
  isAlive : Bool
deriving DecidableEq

/-- `InputRequiredPayload` (types.ts). -/
structure InputRequiredPayload where
  sessionId : String
  projectTag : String
  prompt : String
  options : List String
  inputType : InputType
deriving DecidableEq

/-- Outgoing WebSocket messages the claims observe. -/
inductive OutMsg where
  | inputRequired (payload : InputRequiredPayload)
  | handshakeAck
deriving DecidableEq

/-- How a channel was closed: `ws.close(code?, reason?)` or `ws.terminate()`. -/
inductive CloseReason where
  | close (code : Option Nat) (reason : Option String)
  | terminated
deriving DecidableEq

/-- Reasons the broker rejects a pending request's continuation. -/
inductive RejectReason where
  | timeout
  | cancelled
deriving DecidableEq

/-- One call to a pending request's stored `resolve` or `reject` continuation. -/
inductive Settlement where
  | resolved (answer : String)
  | rejected (reason : RejectReason)
deriving DecidableEq

/-- `PendingInputRequest` (monitoring.ts), without the wall-clock `createdAt`;
the `resolve`/`reject` pair and `timeoutId` live in the broker's settlement
ledger and armed-timer list.  The `Set<string>` fields are lists queried only
by membership. -/
structure PendingInputRequest where
  requestId : String
  sessionId : String
  projectTag : String
  prompt : String
  options : List String
  inputType : InputType
  notifiedDevices : List String
  pushedViaApns : List String
deriving DecidableEq

/-- Outcome of one `apnsProvider.send` call: a result with the length of its
`failed` list, or a thrown error. -/
inductive ApnsSendResult where
  | ok (failedCount : Nat)
  | thrown (msg : String)
deriving DecidableEq

/-- Outcome of `requestMobileInput`: the thrown no-recipients error, or a
created pending request together with the effective timeout passed to
`setTimeout`. -/
inductive RequestOutcome where
  | noRecipients (msg : String)
  | started (sessionId : String) (effectiveTimeoutMs : Nat)
deriving DecidableEq

/-- `InputRequestResponse` (types.ts), the body returned by the
`/input-request` HTTP handler. -/
structure InputRequestResponse where
  success : Bool
  response : String
  responded_by : String
  response_time_ms : Nat
deriving DecidableEq

/-! ### Association lists modelling JavaScript `Map` -/

/-- `Map.get`: the value of the first entry with the given key. -/
def alGet {α : Type} (k : String) : List (String × α) → Option α
  | [] => none
  | (k', v) :: rest => if k' = k then some v else alGet k rest

/-- `Map.delete`: remove every entry with the given key. -/
def alDelete {α : Type} (k : String) (m : List (String × α)) : List (String × α) :=
  m.filter (fun kv => decide (kv.1 ≠ k))

/-- `Map.set`: bind the key to the value (position of entries is irrelevant to
every claim, so the updated binding is placed in front). -/
def alSet {α : Type} (k : String) (v : α) (m : List (String × α)) : List (String × α) :=
  (k, v) :: alDelete k m

/-! ### Broker state -/

/-- The mutable fields of `MonitoringManager`, plus the settlement ledger,
armed-timer list and observation logs described in the file header. -/
structure BrokerState where
  clients : List (String × ConnectedClient)
  pendingRequests : List (String × PendingInputRequest)
  deviceApnsTokens : List (String × String)
  heartbeatActive : Bool
  apnsProvider : Bool
  bundleIdConfigured : Bool
  inputTimeoutMs : Nat
  timersArmed : List String
  settlements : List (String × Settlement)
  sentMessages : List (Nat × OutMsg)
  closedChannels : List (Nat × CloseReason)
  pushAttempts : List (String × String)
deriving DecidableEq

/-- `DEFAULT_INPUT_TIMEOUT_MINUTES = 30` (monitoring.ts line 21). -/
def DEFAULT_INPUT_TIMEOUT_MINUTES : Nat := 30

/-- The field initializer `inputTimeoutMs = DEFAULT_INPUT_TIMEOUT_MINUTES * 60 * 1000`. -/
def initialInputTimeoutMs : Nat := DEFAULT_INPUT_TIMEOUT_MINUTES * 60 * 1000

/-- `initialize` (monitoring.ts lines 72-75): the configured
`input_timeout_minutes` overrides the default only when truthy (so a configured
0 keeps the default). -/
def computeInputTimeoutMs (configMinutes : Option Nat) : Nat :=
  match configMinutes with
  | some m => if m ≠ 0 then m * 60 * 1000 else initialInputTimeoutMs
  | none => initialInputTimeoutMs

/-- The `InputRequiredPayload` built from a pending request's stored fields. -/
def payloadOf (req : PendingInputRequest) : InputRequiredPayload :=
  { sessionId := req.sessionId
    projectTag := req.projectTag
    prompt := req.prompt
    options := req.options
    inputType := req.inputType }

/-- `client && client.ws.readyState === WebSocket.OPEN` for a device id. -/
def deviceIsConnected (s : BrokerState) (deviceId : String) : Bool :=
  match alGet deviceId s.clients with
  | some c => c.wsOpen
  | none => false

/-- `getConnectedDeviceCount` (monitoring.ts lines 414-418). -/
def getConnectedDeviceCount (s : BrokerState) : Nat :=
  (s.clients.filter (fun kv => kv.2.wsOpen)).length

/-- `notifyInputRequired` (monitoring.ts lines 533-554) as used at request
creation: sends the payload to every client whose socket is open, and returns
the ids recorded into `notifiedDevices` together with the messages sent. -/
def notifyInputRequired (clients : List (String × ConnectedClient))
    (payload : InputRequiredPayload) : List String × List (Nat × OutMsg) :=
  let live := clients.filter (fun kv => kv.2.wsOpen)
  (live.map (fun kv => kv.1),
   live.map (fun kv => (kv.2.wsId, OutMsg.inputRequired payload)))

/-- `sendApnsPush` (monitoring.ts lines 145-184): returns false when the
provider is missing or the bundle id unconfigured; otherwise one provider send
whose thrown errors and non-empty `failed` lists are both converted to false. -/
def sendApnsPush (apnsProvider : Bool) (bundleIdConfigured : Bool)
    (providerSend : String → ApnsSendResult) (deviceToken : String) : Bool :=
  if !apnsProvider || !bundleIdConfigured then false
  else
    match providerSend deviceToken with
    | ApnsSendResult.ok failedCount => if failedCount > 0 then false else true
    | ApnsSendResult.thrown _ => false

/-- One iteration of the loop in `sendApnsPushToDisconnectedDevices`: the
accumulator carries the pending request (whose `pushedViaApns` set is being
grown) and the log of push-adapter invocations. -/
def pushStep (s : BrokerState) (providerSend : String → ApnsSendResult)
    (acc : PendingInputRequest × List (String × String)) (kv : String × String) :
    PendingInputRequest × List (String × String) :=
  if !(deviceIsConnected s kv.1) && !(decide (kv.1 ∈ acc.1.pushedViaApns)) then
    let success := sendApnsPush s.apnsProvider s.bundleIdConfigured providerSend kv.2
    (if success then
       { acc.1 with pushedViaApns := acc.1.pushedViaApns ++ [kv.1] }
     else acc.1,
     acc.2 ++ [kv])
  else acc

/-- `sendApnsPushToDisconnectedDevices` (monitoring.ts lines 490-513): returns
the updated pending request and the list of `sendApnsPush` invocations made. -/
def sendApnsPushToDisconnectedDevices (s : BrokerState)
    (providerSend : String → ApnsSendResult) (req : PendingInputRequest) :
    PendingInputRequest × List (String × String) :=
  if !s.apnsProvider then (req, [])
  else s.deviceApnsTokens.foldl (pushStep s providerSend) (req, [])

/-- `requestMobileInput` (monitoring.ts lines 426-488).  The generated session
id and the push-provider oracle are parameters.  Throwing the no-recipients
error is modelled by the `noRecipients` outcome with the state unchanged. -/
def requestMobileInput (s : BrokerState) (providerSend : String → ApnsSendResult)
    (projectTag prompt : String) (options : List String) (inputType : InputType)
    (timeoutMs : Option Nat) (sessionId : String) : BrokerState × RequestOutcome :=
  let effectiveTimeout := timeoutMs.getD s.inputTimeoutMs
  let connectedCount := getConnectedDeviceCount s
  let hasApnsTokens := decide (s.deviceApnsTokens.length > 0)
  if connectedCount = 0 && !hasApnsTokens then
    (s, RequestOutcome.noRecipients
      ("No mobile devices connected for monitoring and no APNs tokens available"))
  else
    let req0 : PendingInputRequest :=
      { requestId := sessionId
        sessionId := sessionId
        projectTag := projectTag
        prompt := prompt
        options := options
        inputType := inputType
        notifiedDevices := []
        pushedViaApns := [] }
    let payload := payloadOf req0
    let fanout := notifyInputRequired s.clients payload
    let req1 := { req0 with notifiedDevices := fanout.1 }
    let pushed := sendApnsPushToDisconnectedDevices s providerSend req1
    ({ s with
        pendingRequests := alSet sessionId pushed.1 s.pendingRequests
        timersArmed := s.timersArmed ++ [sessionId]
        sentMessages := s.sentMessages ++ fanout.2
        pushAttempts := s.pushAttempts ++ pushed.2 },
     RequestOutcome.started sessionId effectiveTimeout)

/-- `handleInputResponse` (monitoring.ts lines 346-361): a silent no-op for an
unknown session id; otherwise clears the timer, removes the entry and resolves
the continuation with the answer only (the responding device's name is used
solely for logging). -/
def handleInputResponse (s : BrokerState) (sessionId response deviceName : String) :
    BrokerState :=
  match alGet sessionId s.pendingRequests with
  | none => s
  | some _ =>
    { s with
        timersArmed := s.timersArmed.filter (fun i => decide (i ≠ sessionId))
        pendingRequests := alDelete sessionId s.pendingRequests
        settlements := s.settlements ++ [(sessionId, Settlement.resolved response)] }

/-- The `setTimeout` callback of `requestMobileInput` (lines 448-451): it can
only run while the timer is still armed, and then deletes the entry and rejects
the continuation with the timeout error. -/
def fireTimeout (s : BrokerState) (sessionId : String) : BrokerState :=
  if sessionId ∈ s.timersArmed then
    { s with
        timersArmed := s.timersArmed.filter (fun i => decide (i ≠ sessionId))
        pendingRequests := alDelete sessionId s.pendingRequests
        settlements := s.settlements ++ [(sessionId, Settlement.rejected RejectReason.timeout)] }
  else s

/-- `cancelInputRequest` (monitoring.ts lines 521-530). -/
def cancelInputRequest (s : BrokerState) (sessionId : String) : BrokerState × Bool :=
  match alGet sessionId s.pendingRequests with
  | some _ =>
    ({ s with
        timersArmed := s.timersArmed.filter (fun i => decide (i ≠ sessionId))
        pendingRequests := alDelete sessionId s.pendingRequests
        settlements := s.settlements ++ [(sessionId, Settlement.rejected RejectReason.cancelled)] },
     true)
  | none => (s, false)

/-- Per-entry update performed by `resendPendingRequestsToDevice`. -/
def resendUpdate (deviceId : String) (req : PendingInputRequest) : PendingInputRequest :=
  if deviceId ∈ req.notifiedDevices then req
  else { req with notifiedDevices := req.notifiedDevices ++ [deviceId] }

/-- `resendPendingRequestsToDevice` (monitoring.ts lines 363-387): every pending
request whose `notifiedDevices` set lacks the device gets the `input_required`
message on the fresh (open) socket and the device id added to the set. -/
def resendPendingRequestsToDevice (s : BrokerState) (deviceId : String) (wsId : Nat) :
    BrokerState :=
  let newMsgs :=
    (s.pendingRequests.filter (fun kv => !(decide (deviceId ∈ kv.2.notifiedDevices)))).map
      (fun kv => (wsId, OutMsg.inputRequired (payloadOf kv.2)))
  { s with
      pendingRequests := s.pendingRequests.map (fun kv => (kv.1, resendUpdate deviceId kv.2))
      sentMessages := s.sentMessages ++ newMsgs }

/-- `handleConnection` (monitoring.ts lines 186-292): learn the push token,
build the new session (preserving reconnect count and, when no token was
supplied, the prior session's token), close a still-open prior channel, install
the new client, re-send unacknowledged pending requests, send the handshake
acknowledgment. -/
def handleConnection (s : BrokerState) (deviceId deviceName : String)
    (apnsToken : Option String) (newWsId : Nat) : BrokerState :=
  let tokens' :=
    match apnsToken with
    | some t => alSet deviceId t s.deviceApnsTokens
    | none => s.deviceApnsTokens
  let existing := alGet deviceId s.clients
  let sessionToken :=
    match apnsToken with
    | some t => some t
    | none =>
      match existing with
      | some ec => ec.session.apnsToken
      | none => none
  let session : MonitoringSession :=
    { deviceId := deviceId
      deviceName := deviceName
      apnsToken := sessionToken
      status := SessionStatus.active
      reconnectAttempts :=
        match existing with
        | some ec => ec.session.reconnectAttempts + 1
        | none => 0 }
  let closes :=
    match existing with
    | some ec =>
      if ec.wsOpen then [(ec.wsId, CloseReason.close none none)] else []
    | none => []
  let newClient : ConnectedClient :=
    { wsId := newWsId, wsOpen := true, session := session, isAlive := true }
  let s1 :=
    { s with
        deviceApnsTokens := tokens'
        closedChannels := s.closedChannels ++ closes
        clients := alSet deviceId newClient s.clients }
  let s2 := resendPendingRequestsToDevice s1 deviceId newWsId
  { s2 with sentMessages := s2.sentMessages ++ [(newWsId, OutMsg.handshakeAck)] }

/-- The `ws.on('close')` handler (monitoring.ts lines 272-286): mark the
session disconnected; eviction happens later in `sessionExpiryFire`. -/
def handleWsClose (s : BrokerState) (deviceId : String) : BrokerState :=
  match alGet deviceId s.clients with
  | some c =>
    { s with
        clients := alSet deviceId
          { c with session := { c.session with status := SessionStatus.disconnected } }
          s.clients }
  | none => s

/-- The `SESSION_TIMEOUT` callback inside the close handler: evict the session
only if it is still present and still disconnected. -/
def sessionExpiryFire (s : BrokerState) (deviceId : String) : BrokerState :=
  match alGet deviceId s.clients with
  | some c =>
    if c.session.status = SessionStatus.disconnected then
      { s with clients := alDelete deviceId s.clients }
    else s
  | none => s

/-- `shutdown` (monitoring.ts lines 592-625): stop the heartbeat interval,
close every open channel with code 1001 and reason Server shutting down, clear
the client map, release the APNs provider, clear the timeout of every pending
request and clear the pending map.  The continuations are not settled. -/
def shutdown (s : BrokerState) : BrokerState :=
  { s with
      heartbeatActive := false
      clients := []
      closedChannels := s.closedChannels ++
        (s.clients.filter (fun kv => kv.2.wsOpen)).map
          (fun kv => (kv.2.wsId, CloseReason.close (some 1001) (some ("Server shutting down"))))
      apnsProvider := false
      timersArmed := s.timersArmed.filter (fun i => (alGet i s.pendingRequests).isNone)
      pendingRequests := [] }

/-- The success body built by the `/input-request` handler (server.ts lines
429-434) from the string the promise resolved with and the measured elapsed
time: `responded_by` is the literal constant. -/
def inputRequestHttpResult (userResponse : String) (responseTimeMs : Nat) :
    InputRequestResponse :=
  { success := true
    response := userResponse
    responded_by := ("mobile")
    response_time_ms := responseTimeMs }

/-! ### Event traces over a pending request's continuation -/

/-- The three kinds of events that can complete a pending request: an answer
arriving (`handleInputResponse`), the deadline timer firing, an explicit
cancellation. -/
inductive ReqEvent where
  | answer (sessionId response deviceName : String)
  | timerFire (sessionId : String)
  | cancel (sessionId : String)
deriving DecidableEq

/-- The request id an event targets. -/
def ReqEvent.sid : ReqEvent → String
  | ReqEvent.answer i _ _ => i
  | ReqEvent.timerFire i => i
  | ReqEvent.cancel i => i

/-- Apply one completion event to the broker state. -/
def stepReq (s : BrokerState) : ReqEvent → BrokerState
  | ReqEvent.answer i r n => handleInputResponse s i r n
  | ReqEvent.timerFire i => fireTimeout s i
  | ReqEvent.cancel i => (cancelInputRequest s i).1

/-- Apply a sequence of completion events. -/
def runReq (s : BrokerState) (es : List ReqEvent) : BrokerState :=
  es.foldl stepReq s

/-- How many times a request id's continuation has been settled. -/
def countFor (id : String) (l : List (String × Settlement)) : Nat :=
  (l.filter (fun kv => decide (kv.1 = id))).length

/-- A freshly created, still-pending request: table entry present, deadline
timer armed, continuation never settled. -/
abbrev FreshFor (s : BrokerState) (id : String) : Prop :=
  (alGet id s.pendingRequests).isSome = true ∧ id ∈ s.timersArmed ∧
    countFor id s.settlements = 0

/-- A completed request: table entry gone, timer disarmed, continuation
settled exactly once. -/
abbrev DoneFor (s : BrokerState) (id : String) : Prop :=
  alGet id s.pendingRequests = none ∧ id ∉ s.timersArmed ∧
    countFor id s.settlements = 1

/-- Number of `input_required` messages for a given request id in a send log. -/
def msgSessionId : OutMsg → Option String
  | OutMsg.inputRequired p => some p.sessionId
  | OutMsg.handshakeAck => none

/-- Count of `input_required` sends carrying the given request id. -/
def msgCountFor (sid : String) (msgs : List (Nat × OutMsg)) : Nat :=
  (msgs.filter (fun m => decide (msgSessionId m.2 = some sid))).length

/-! ### Association-list lemmas -/

theorem alGet_alDelete_self {α : Type} (k : String) (m : List (String × α)) :
    alGet k (alDelete k m) = none := by
  induction m with
  | nil => rfl
  | cons kv rest ih =>
    obtain ⟨k', v⟩ := kv
    by_cases h : k' = k
    · simpa [alDelete, List.filter_cons, h] using ih
    · simpa [alDelete, List.filter_cons, h, alGet] using ih

theorem alGet_alDelete_ne {α : Type} {k' k : String} (h : k' ≠ k) (m : List (String × α)) :
    alGet k' (alDelete k m) = alGet k' m := by
  have hkk : k ≠ k' := fun hk => h hk.symm
  induction m with
  | nil => rfl
  | cons kv rest ih =>
    obtain ⟨k₀, v⟩ := kv
    by_cases h0 : k₀ = k
    · subst h0
      simpa [alDelete, List.filter_cons, alGet, hkk] using ih
    · by_cases h1 : k₀ = k'
      · subst h1
        simp [alDelete, List.filter_cons, alGet, h]
      · simpa [alDelete, List.filter_cons, h0, alGet, h1] using ih

theorem alGet_alSet_self {α : Type} (k : String) (v : α) (m : List (String × α)) :
    alGet k (alSet k v m) = some v := by
  simp [alSet, alGet]

theorem alGet_alSet_ne {α : Type} {k' k : String} (h : k' ≠ k) (v : α) (m : List (String × α)) :
    alGet k' (alSet k v m) = alGet k' m := by
  have : k ≠ k' := fun hk => h hk.symm
  simp [alSet, alGet, this, alGet_alDelete_ne h]

theorem alGet_mem {α : Type} {k : String} {v : α} {m : List (String × α)}
    (h : alGet k m = some v) : (k, v) ∈ m := by
  induction m with
  | nil => simp [alGet] at h
  | cons kv rest ih =>
    obtain ⟨k₀, v₀⟩ := kv
    by_cases h0 : k₀ = k
    · simp [alGet, h0] at h
      simp [h0, h]
    · simp [alGet, h0] at h
      simp [ih h]

theorem alGet_of_mem_nodup {α : Type} {k : String} {v : α} {m : List (String × α)}
    (hnd : (m.map Prod.fst).Nodup) (h : (k, v) ∈ m) : alGet k m = some v := by
  induction m with
  | nil => simp at h
  | cons kv rest ih =>
    obtain ⟨k₀, v₀⟩ := kv
    simp only [List.map_cons, List.nodup_cons] at hnd
    rcases List.mem_cons.mp h with heq | hmem
    · obtain ⟨hk, hv⟩ := Prod.mk.injEq .. ▸ heq
      simp_all [alGet]
    · have hk0 : k₀ ≠ k := by
        intro he
        exact hnd.1 (he ▸ (List.mem_map.mpr ⟨(k, v), hmem, rfl⟩))
      simp [alGet, hk0, ih hnd.2 hmem]

theorem alGet_mapVal {α β : Type} (f : α → β) (k : String) (m : List (String × α)) :
    alGet k (m.map (fun kv => (kv.1, f kv.2))) = (alGet k m).map f := by
  induction m with
  | nil => rfl
  | cons kv rest ih =>
    obtain ⟨k₀, v₀⟩ := kv
    by_cases h0 : k₀ = k
    · simp [alGet, h0]
    · simpa [alGet, h0] using ih

theorem mem_filter_ne_self (id : String) (l : List String) :
    id ∉ l.filter (fun x => decide (x ≠ id)) := by
  simp [List.mem_filter]

theorem mem_filter_ne_iff {id i : String} (h : id ≠ i) (l : List String) :
    id ∈ l.filter (fun x => decide (x ≠ i)) ↔ id ∈ l := by
  simp [List.mem_filter, h]

theorem countFor_append (id : String) (a b : List (String × Settlement)) :
    countFor id (a ++ b) = countFor id a + countFor id b := by
  simp [countFor, List.filter_append]

theorem countFor_single_self (id : String) (x : Settlement) :
    countFor id [(id, x)] = 1 := by
  simp [countFor]

theorem countFor_single_ne {i id : String} (h : i ≠ id) (x : Settlement) :
    countFor id [(i, x)] = 0 := by
  simp [countFor, h]

/-! ### Single-fire behaviour of the continuation -/

theorem stepReq_other (s : BrokerState) (e : ReqEvent) (id : String) (h : e.sid ≠ id) :
    alGet id (stepReq s e).pendingRequests = alGet id s.pendingRequests ∧
    (id ∈ (stepReq s e).timersArmed ↔ id ∈ s.timersArmed) ∧
    countFor id (stepReq s e).settlements = countFor id s.settlements := by
  have hid : id ≠ e.sid := fun hk => h hk.symm
  cases e with
  | answer i r n =>
    simp only [ReqEvent.sid] at hid
    cases hg : alGet i s.pendingRequests with
    | none => simp [stepReq, handleInputResponse, hg]
    | some req =>
      refine ⟨?_, ?_, ?_⟩
      · simpa [stepReq, handleInputResponse, hg] using alGet_alDelete_ne hid _
      · simpa [stepReq, handleInputResponse, hg] using mem_filter_ne_iff hid _
      · simp [stepReq, handleInputResponse, hg, countFor_append,
          countFor_single_ne (fun hk => hid hk.symm)]
  | timerFire i =>
    simp only [ReqEvent.sid] at hid
    by_cases ht : i ∈ s.timersArmed
    · refine ⟨?_, ?_, ?_⟩
      · simpa [stepReq, fireTimeout, ht] using alGet_alDelete_ne hid _
      · simpa [stepReq, fireTimeout, ht] using mem_filter_ne_iff hid _
      · simp [stepReq, fireTimeout, ht, countFor_append,
          countFor_single_ne (fun hk => hid hk.symm)]
    · simp [stepReq, fireTimeout, ht]
  | cancel i =>
    simp only [ReqEvent.sid] at hid
    cases hg : alGet i s.pendingRequests with
    | none => simp [stepReq, cancelInputRequest, hg]
    | some req =>
      refine ⟨?_, ?_, ?_⟩
      · simpa [stepReq, cancelInputRequest, hg] using alGet_alDelete_ne hid _
      · simpa [stepReq, cancelInputRequest, hg] using mem_filter_ne_iff hid _
      · simp [stepReq, cancelInputRequest, hg, countFor_append,
          countFor_single_ne (fun hk => hid hk.symm)]

theorem stepReq_fresh_done (s : BrokerState) (e : ReqEvent) (id : String)
    (h : e.sid = id) (hf : FreshFor s id) : DoneFor (stepReq s e) id := by
  obtain ⟨h1, h2, h3⟩ := hf
  cases e with
  | answer i r n =>
    simp only [ReqEvent.sid] at h
    subst h
    obtain ⟨req, hg⟩ := Option.isSome_iff_exists.mp h1
    refine ⟨?_, ?_, ?_⟩
    · simpa [stepReq, handleInputResponse, hg] using alGet_alDelete_self _ _
    · simpa [stepReq, handleInputResponse, hg] using mem_filter_ne_self _ _
    · simp [stepReq, handleInputResponse, hg, countFor_append, h3,
        countFor_single_self]
  | timerFire i =>
    simp only [ReqEvent.sid] at h
    subst h
    refine ⟨?_, ?_, ?_⟩
    · simpa [stepReq, fireTimeout, h2] using alGet_alDelete_self _ _
    · simpa [stepReq, fireTimeout, h2] using mem_filter_ne_self _ _
    · simp [stepReq, fireTimeout, h2, countFor_append, h3, countFor_single_self]
  | cancel i =>
    simp only [ReqEvent.sid] at h
    subst h
    obtain ⟨req, hg⟩ := Option.isSome_iff_exists.mp h1
    refine ⟨?_, ?_, ?_⟩
    · simpa [stepReq, cancelInputRequest, hg] using alGet_alDelete_self _ _
    · simpa [stepReq, cancelInputRequest, hg] using mem_filter_ne_self _ _
    · simp [stepReq, cancelInputRequest, hg, countFor_append, h3,
        countFor_single_self]

theorem stepReq_done_eq (s : BrokerState) (e : ReqEvent) (id : String)
    (h : e.sid = id) (hd : DoneFor s id) : stepReq s e = s := by
  cases e with
  | answer i r n =>
    simp only [ReqEvent.sid] at h
    subst h
    simp [stepReq, handleInputResponse, hd.1]
  | timerFire i =>
    simp only [ReqEvent.sid] at h
    subst h
    simp [stepReq, fireTimeout, hd.2.1]
  | cancel i =>
    simp only [ReqEvent.sid] at h
    subst h
    simp [stepReq, cancelInputRequest, hd.1]

theorem stepReq_done (s : BrokerState) (e : ReqEvent) (id : String)
    (hd : DoneFor s id) : DoneFor (stepReq s e) id := by
  by_cases h : e.sid = id
  · rw [stepReq_done_eq s e id h hd]; exact hd
  · obtain ⟨h1, h2, h3⟩ := stepReq_other s e id h
    exact ⟨h1 ▸ hd.1, fun hmem => hd.2.1 (h2.mp hmem), h3 ▸ hd.2.2⟩

theorem runReq_done (id : String) (es : List ReqEvent) :
    ∀ s : BrokerState, DoneFor s id → DoneFor (runReq s es) id := by
  induction es with
  | nil => intro s hd; exact hd
  | cons e es ih =>
    intro s hd
    exact ih (stepReq s e) (stepReq_done s e id hd)

theorem runReq_fresh (id : String) (es : List ReqEvent) :
    ∀ s : BrokerState, FreshFor s id →
      (es.any (fun e => decide (e.sid = id)) = true → DoneFor (runReq s es) id) ∧
      (es.any (fun e => decide (e.sid = id)) = false → FreshFor (runReq s es) id) := by
  induction es with
  | nil =>
    intro s hf
    exact ⟨fun h => by simp at h, fun _ => hf⟩
  | cons e es ih =>
    intro s hf
    by_cases h : e.sid = id
    · have hd := stepReq_fresh_done s e id h hf
      refine ⟨fun _ => runReq_done id es _ hd, fun hall => ?_⟩
      simp [List.any_cons, h] at hall
    · obtain ⟨h1, h2, h3⟩ := stepReq_other s e id h
      have hf' : FreshFor (stepReq s e) id :=
        ⟨h1 ▸ hf.1, h2.mpr hf.2.1, h3 ▸ hf.2.2⟩
      obtain ⟨ha, hb⟩ := ih (stepReq s e) hf'
      refine ⟨fun hany => ?_, fun hnone => ?_⟩
      · have : es.any (fun e => decide (e.sid = id)) = true := by
          simpa [List.any_cons, h] using hany
        exact ha this
      · have : es.any (fun e => decide (e.sid = id)) = false := by
          simpa [List.any_cons, h] using hnone
        exact hb this

/-! ### Concrete sample data for witnesses -/

/-- A concrete pending request used in witness states. -/
def sampleReq : PendingInputRequest :=
  { requestId := "r1"
    sessionId := "r1"
    projectTag := "proj"
    prompt := "Pick 1, 2 or 3"
    options := ["1", "2", "3"]
    inputType := InputType.numeric
    notifiedDevices := ["deviceA"]
    pushedViaApns := [] }

/-- A concrete session for the connected device of the witness states. -/
def sampleSession : MonitoringSession :=
  { deviceId := "deviceA"
    deviceName := "Device A"
    apnsToken := none
    status := SessionStatus.active
    reconnectAttempts := 0 }

/-- A concrete connected client with an open socket. -/
def sampleClient : ConnectedClient :=
  { wsId := 1, wsOpen := true, session := sampleSession, isAlive := true }

/-- A broker state with one live device and one fresh pending request. -/
def sampleState : BrokerState :=
  { clients := [("deviceA", sampleClient)]
    pendingRequests := [("r1", sampleReq)]
    deviceApnsTokens := []
    heartbeatActive := true
    apnsProvider := false
    bundleIdConfigured := false
    inputTimeoutMs := 1800000
    timersArmed := ["r1"]
    settlements := []
    sentMessages := []
    closedChannels := []
    pushAttempts := [] }

/-- A broker state with no clients, no pending requests and no push tokens. -/
def emptyState : BrokerState :=
  { clients := []
    pendingRequests := []
    deviceApnsTokens := []
    heartbeatActive := true
    apnsProvider := false
    bundleIdConfigured := false
    inputTimeoutMs := 1800000
    timersArmed := []
    settlements := []
    sentMessages := []
    closedChannels := []
    pushAttempts := [] }

/-- Event sequence for the C1 witness: a first answer, then a duplicate answer
from another device, an explicit cancellation, and a timer-fire attempt. -/
def c1Events : List ReqEvent :=
  [ReqEvent.answer ("r1") ("2") ("Device A"),
   ReqEvent.answer ("r1") ("3") ("Device B"),
   ReqEvent.cancel ("r1"),
   ReqEvent.timerFire ("r1")]

/-! ### Claim theorems -/

/-- C1: for a fresh pending request (entry present, deadline timer armed,
continuation unsettled), any sequence of answer arrivals, timer expiries and
explicit cancellations containing at least one event for its id settles the
continuation exactly once, removes the table entry and disarms the timer; and
every further resolve/expire/cancel call for that id afterwards leaves the
state completely unchanged (a silent no-op that cannot settle a second time). -/
theorem pendingRequest_settles_exactly_once (s : BrokerState) (id : String)
    (h1 : (alGet id s.pendingRequests).isSome = true)
    (h2 : id ∈ s.timersArmed)
    (h3 : countFor id s.settlements = 0)
    (es : List ReqEvent)
    (hev : es.any (fun e => decide (e.sid = id)) = true) :
    alGet id (runReq s es).pendingRequests = none ∧
    id ∉ (runReq s es).timersArmed ∧
    countFor id (runReq s es).settlements = 1 ∧
    ∀ e : ReqEvent, e.sid = id → stepReq (runReq s es) e = runReq s es := by
  have hd := (runReq_fresh id es s ⟨h1, h2, h3⟩).1 hev
  exact ⟨hd.1, hd.2.1, hd.2.2, fun e he => stepReq_done_eq _ e id he hd⟩

/-- Witness for C1 at the concrete state `sampleState` and the event sequence
`c1Events`. -/
theorem pendingRequest_settles_exactly_once_witness :
    (alGet ("r1") sampleState.pendingRequests).isSome = true ∧
    ("r1") ∈ sampleState.timersArmed ∧
    countFor ("r1") sampleState.settlements = 0 ∧
    c1Events.any (fun e => decide (e.sid = ("r1"))) = true ∧
    (alGet ("r1") (runReq sampleState c1Events).pendingRequests = none ∧
     ("r1") ∉ (runReq sampleState c1Events).timersArmed ∧
     countFor ("r1") (runReq sampleState c1Events).settlements = 1 ∧
     ∀ e : ReqEvent, e.sid = ("r1") →
       stepReq (runReq sampleState c1Events) e = runReq sampleState c1Events) :=
  ⟨by decide, by decide, by decide, by decide,
   pendingRequest_settles_exactly_once sampleState ("r1")
     (by decide) (by decide) (by decide) c1Events (by decide)⟩

/-- C2: with zero open sockets and zero stored push tokens, `requestMobileInput`
returns the no-recipients error with the whole broker state unchanged — in
particular no pending entry is inserted and no deadline timer is armed. -/
theorem requestInput_no_recipients (s : BrokerState)
    (providerSend : String → ApnsSendResult)
    (projectTag prompt : String) (options : List String) (inputType : InputType)
    (timeoutMs : Option Nat) (sessionId : String)
    (h1 : getConnectedDeviceCount s = 0)
    (h2 : s.deviceApnsTokens = []) :
    requestMobileInput s providerSend projectTag prompt options inputType timeoutMs sessionId
      = (s, RequestOutcome.noRecipients
          ("No mobile devices connected for monitoring and no APNs tokens available")) ∧
    (requestMobileInput s providerSend projectTag prompt options inputType
        timeoutMs sessionId).1.pendingRequests = s.pendingRequests ∧
    (requestMobileInput s providerSend projectTag prompt options inputType
        timeoutMs sessionId).1.timersArmed = s.timersArmed := by
  have hmain :
      requestMobileInput s providerSend projectTag prompt options inputType timeoutMs sessionId
        = (s, RequestOutcome.noRecipients
            ("No mobile devices connected for monitoring and no APNs tokens available")) := by
    simp [requestMobileInput, h1, h2]
  exact ⟨hmain, by rw [hmain], by rw [hmain]⟩

/-- Witness for C2 at the concrete state `emptyState`. -/
theorem requestInput_no_recipients_witness :
    getConnectedDeviceCount emptyState = 0 ∧
    emptyState.deviceApnsTokens = [] ∧
    requestMobileInput emptyState (fun _ => ApnsSendResult.ok 0) ("proj") ("ask")
        [] InputType.text none ("s1")
      = (emptyState, RequestOutcome.noRecipients
          ("No mobile devices connected for monitoring and no APNs tokens available")) :=
  ⟨by decide, rfl,
   (requestInput_no_recipients emptyState (fun _ => ApnsSendResult.ok 0) ("proj") ("ask")
     [] InputType.text none ("s1") (by decide) rfl).1⟩

/-- C3 (amended): when an answer arrives for a still-pending request, the
continuation is resolved with the answer string only and the entry is removed;
the HTTP result then gives the caller the answer and the elapsed time, but its
responded_by field is the fixed placeholder string mobile — the identity of the
answering device is not propagated to the caller. -/
theorem inputResponse_resolves_with_answer_only (s : BrokerState)
    (id response deviceName : String) (elapsedMs : Nat)
    (h : (alGet id s.pendingRequests).isSome = true) :
    (handleInputResponse s id response deviceName).settlements
        = s.settlements ++ [(id, Settlement.resolved response)] ∧
    alGet id (handleInputResponse s id response deviceName).pendingRequests = none ∧
    (inputRequestHttpResult response elapsedMs).response = response ∧
    (inputRequestHttpResult response elapsedMs).response_time_ms = elapsedMs ∧
    (inputRequestHttpResult response elapsedMs).responded_by = ("mobile") := by
  obtain ⟨req, hg⟩ := Option.isSome_iff_exists.mp h
  refine ⟨by simp [handleInputResponse, hg], ?_, rfl, rfl, rfl⟩
  simpa [handleInputResponse, hg] using alGet_alDelete_self id s.pendingRequests

/-- Witness for C3 (amended) at the concrete state `sampleState`. -/
theorem inputResponse_resolves_with_answer_only_witness :
    (alGet ("r1") sampleState.pendingRequests).isSome = true ∧
    ((handleInputResponse sampleState ("r1") ("2") ("Device A")).settlements
        = sampleState.settlements ++ [(("r1"), Settlement.resolved ("2"))] ∧
     alGet ("r1") (handleInputResponse sampleState ("r1") ("2") ("Device A")).pendingRequests
        = none ∧
     (inputRequestHttpResult ("2") 500).response = ("2") ∧
     (inputRequestHttpResult ("2") 500).response_time_ms = 500 ∧
     (inputRequestHttpResult ("2") 500).responded_by = ("mobile")) :=
  ⟨by decide,
   inputResponse_resolves_with_answer_only sampleState ("r1") ("2") ("Device A") 500 (by decide)⟩

/-- C3 counterexample: device deviceA (display name Device A) answers 2 for the
pending request r1 at 500 ms elapsed.  The settlement carries only the answer
string — any answering device yields the identical settlement — and the body
the caller receives reports responded_by = mobile, which equals neither the
answering device's id nor its name: the responded-by field is a generic
placeholder, not the identity of the specific device that answered. -/
theorem respondedBy_is_generic_placeholder :
    (handleInputResponse sampleState ("r1") ("2") ("Device A")).settlements
        = [(("r1"), Settlement.resolved ("2"))] ∧
    (handleInputResponse sampleState ("r1") ("2") ("Device B")).settlements
        = [(("r1"), Settlement.resolved ("2"))] ∧
    (inputRequestHttpResult ("2") 500).responded_by = ("mobile") ∧
    (inputRequestHttpResult ("2") 500).responded_by ≠ ("deviceA") ∧
    (inputRequestHttpResult ("2") 500).responded_by ≠ ("Device A") :=
  ⟨by decide, by decide, rfl, by decide, by decide⟩

/-- Every entry of `alDelete k m` has a key other than `k`. -/
theorem filter_key_alDelete {α : Type} (k : String) (m : List (String × α)) :
    (alDelete k m).filter (fun kv => decide (kv.1 = k)) = [] := by
  induction m with
  | nil => rfl
  | cons kv rest ih =>
    obtain ⟨k₀, v₀⟩ := kv
    by_cases h0 : k₀ = k
    · simpa [alDelete, List.filter_cons, h0] using ih
    · simpa [alDelete, List.filter_cons, h0] using ih

/-- `alSet` leaves exactly one entry under the written key. -/
theorem length_filter_key_alSet {α : Type} (k : String) (v : α) (m : List (String × α)) :
    ((alSet k v m).filter (fun kv => decide (kv.1 = k))).length = 1 := by
  simp [alSet, List.filter_cons, filter_key_alDelete]

/-- C4 (amended): `shutdown` stops the heartbeat interval, closes every open
channel with close code 1001 and the distinguishable reason Server shutting
down, empties the client map, disarms the timer of every pending request and
clears the pending table, and releases the push-adapter resource — but it
leaves the settlement ledger untouched: the continuation of a pending request
is NOT rejected (the blocked caller is simply abandoned). -/
theorem shutdown_closes_and_clears (s : BrokerState) (id : String) (c : ConnectedClient)
    (hc : (id, c) ∈ s.clients) (hopen : c.wsOpen = true)
    (rid : String) (hrid : (alGet rid s.pendingRequests).isSome = true) :
    (shutdown s).heartbeatActive = false ∧
    (c.wsId, CloseReason.close (some 1001) (some ("Server shutting down")))
        ∈ (shutdown s).closedChannels ∧
    (shutdown s).clients = [] ∧
    rid ∉ (shutdown s).timersArmed ∧
    (shutdown s).pendingRequests = [] ∧
    (shutdown s).apnsProvider = false ∧
    (shutdown s).settlements = s.settlements := by
  refine ⟨rfl, ?_, rfl, ?_, rfl, rfl, rfl⟩
  · have hmem : (id, c) ∈ s.clients.filter (fun kv => kv.2.wsOpen) :=
      List.mem_filter.mpr ⟨hc, hopen⟩
    exact List.mem_append.mpr (Or.inr (List.mem_map.mpr ⟨(id, c), hmem, rfl⟩))
  · intro hmem
    have h2 := (List.mem_filter.mp hmem).2
    rw [Option.isNone_iff_eq_none] at h2
    rw [h2] at hrid
    simp at hrid

/-- Witness for C4 (amended) at the concrete state `sampleState`. -/
theorem shutdown_closes_and_clears_witness :
    (("deviceA"), sampleClient) ∈ sampleState.clients ∧
    sampleClient.wsOpen = true ∧
    (alGet ("r1") sampleState.pendingRequests).isSome = true ∧
    ((shutdown sampleState).heartbeatActive = false ∧
     (sampleClient.wsId, CloseReason.close (some 1001) (some ("Server shutting down")))
        ∈ (shutdown sampleState).closedChannels ∧
     (shutdown sampleState).clients = [] ∧
     ("r1") ∉ (shutdown sampleState).timersArmed ∧
     (shutdown sampleState).pendingRequests = [] ∧
     (shutdown sampleState).apnsProvider = false ∧
     (shutdown sampleState).settlements = sampleState.settlements) :=
  ⟨by decide, by decide, by decide,
   shutdown_closes_and_clears sampleState ("deviceA") sampleClient
     (by decide) (by decide) ("r1") (by decide)⟩

/-- C4 counterexample: in `sampleState` the request r1 is pending (and a live
channel exists), yet after `shutdown` the settlement ledger is still empty —
the pending request's continuation was never rejected, so the claim that
shutdown rejects each pending request's continuation is false at this state. -/
theorem shutdown_does_not_reject_pending :
    (alGet ("r1") sampleState.pendingRequests).isSome = true ∧
    (shutdown sampleState).settlements = [] ∧
    countFor ("r1") (shutdown sampleState).settlements = 0 :=
  ⟨by decide, rfl, by decide⟩

/-- C5: a connection handshake under an identifier that already has a live
(open) channel closes exactly that prior channel (one plain `close()` appended
to the closure log) before installing the new one, and afterwards exactly one
live channel is registered for the identifier — the fresh, open one. -/
theorem reconnect_closes_exactly_prior_channel (s : BrokerState)
    (deviceId deviceName : String) (tok : Option String) (newWsId : Nat)
    (oldC : ConnectedClient)
    (hold : alGet deviceId s.clients = some oldC)
    (hopen : oldC.wsOpen = true) :
    (handleConnection s deviceId deviceName tok newWsId).closedChannels
        = s.closedChannels ++ [(oldC.wsId, CloseReason.close none none)] ∧
    (∃ c', alGet deviceId (handleConnection s deviceId deviceName tok newWsId).clients
        = some c' ∧ c'.wsOpen = true ∧ c'.wsId = newWsId) ∧
    ((handleConnection s deviceId deviceName tok newWsId).clients.filter
        (fun kv => decide (kv.1 = deviceId))).length = 1 := by
  refine ⟨?_, ?_, ?_⟩
  · simp [handleConnection, resendPendingRequestsToDevice, hold, hopen]
  · simp [handleConnection, resendPendingRequestsToDevice, hold, hopen, alGet_alSet_self]
  · simp [handleConnection, resendPendingRequestsToDevice, hold, hopen,
      length_filter_key_alSet]

/-- Witness for C5: the device of `sampleState` reconnects under a new socket. -/
theorem reconnect_closes_exactly_prior_channel_witness :
    alGet ("deviceA") sampleState.clients = some sampleClient ∧
    sampleClient.wsOpen = true ∧
    ((handleConnection sampleState ("deviceA") ("Device A") none 2).closedChannels
        = sampleState.closedChannels ++ [(sampleClient.wsId, CloseReason.close none none)] ∧
     (∃ c', alGet ("deviceA")
          (handleConnection sampleState ("deviceA") ("Device A") none 2).clients
        = some c' ∧ c'.wsOpen = true ∧ c'.wsId = 2) ∧
     ((handleConnection sampleState ("deviceA") ("Device A") none 2).clients.filter
        (fun kv => decide (kv.1 = ("deviceA")))).length = 1) :=
  ⟨by decide, by decide,
   reconnect_closes_exactly_prior_channel sampleState ("deviceA") ("Device A") none 2
     sampleClient (by decide) (by decide)⟩

/-- C9: a push token supplied on (re)connect overwrites the durable map entry
for the device id; a (re)connect without a token leaves the durable map
unchanged; marking the session disconnected and the later grace-period
eviction both leave the durable map unchanged, so the learned token is still
retrievable (push delivery remains possible) after eviction. -/
theorem pushAddress_durability (s : BrokerState) (deviceId deviceName : String)
    (t : String) (newWsId : Nat) :
    alGet deviceId (handleConnection s deviceId deviceName (some t) newWsId).deviceApnsTokens
        = some t ∧
    (handleConnection s deviceId deviceName none newWsId).deviceApnsTokens
        = s.deviceApnsTokens ∧
    (handleWsClose s deviceId).deviceApnsTokens = s.deviceApnsTokens ∧
    (sessionExpiryFire s deviceId).deviceApnsTokens = s.deviceApnsTokens ∧
    alGet deviceId
        (sessionExpiryFire (handleWsClose s deviceId) deviceId).deviceApnsTokens
      = alGet deviceId s.deviceApnsTokens := by
  have h3 : (handleWsClose s deviceId).deviceApnsTokens = s.deviceApnsTokens := by
    unfold handleWsClose
    cases alGet deviceId s.clients <;> simp
  have h4 : ∀ s' : BrokerState,
      (sessionExpiryFire s' deviceId).deviceApnsTokens = s'.deviceApnsTokens := by
    intro s'
    unfold sessionExpiryFire
    cases alGet deviceId s'.clients with
    | none => simp
    | some c =>
      by_cases hst : c.session.status = SessionStatus.disconnected <;> simp [hst]
  refine ⟨?_, ?_, h3, h4 s, ?_⟩
  · simp [handleConnection, resendPendingRequestsToDevice, alGet_alSet_self]
  · simp [handleConnection, resendPendingRequestsToDevice]
  · rw [h4 _, h3]

/-- A second pending request, not yet delivered to any device. -/
def c6Req2 : PendingInputRequest :=
  { requestId := "r2"
    sessionId := "r2"
    projectTag := "proj"
    prompt := "Continue? (y/n)"
    options := ["Yes", "No"]
    inputType := InputType.yesno
    notifiedDevices := []
    pushedViaApns := [] }

/-- A broker state with one already-notified pending request (r1) and one not
yet delivered to the device (r2). -/
def c6State : BrokerState :=
  { sampleState with pendingRequests := [("r1", sampleReq), ("r2", c6Req2)] }

/-- C6: on any (re)connect of a device, every pending entry whose notified-live
set lacks the device id is re-sent to the device's fresh socket as an
input_required message and gains the id in its notified-live set, while an
entry whose set already contains the id keeps its entry unchanged and gets no
additional input_required message for its request id. -/
theorem reconnect_redelivers_unnotified (s : BrokerState) (deviceId deviceName : String)
    (tok : Option String) (w : Nat) (k : String) (req : PendingInputRequest)
    (hwf : ∀ kv ∈ s.pendingRequests, kv.2.sessionId = kv.1)
    (hnd : (s.pendingRequests.map Prod.fst).Nodup)
    (hk : alGet k s.pendingRequests = some req) :
    (deviceId ∉ req.notifiedDevices →
       alGet k (handleConnection s deviceId deviceName tok w).pendingRequests
         = some { req with notifiedDevices := req.notifiedDevices ++ [deviceId] } ∧
       (w, OutMsg.inputRequired (payloadOf req))
         ∈ (handleConnection s deviceId deviceName tok w).sentMessages) ∧
    (deviceId ∈ req.notifiedDevices →
       alGet k (handleConnection s deviceId deviceName tok w).pendingRequests = some req ∧
       msgCountFor k (handleConnection s deviceId deviceName tok w).sentMessages
         = msgCountFor k s.sentMessages) := by
  have hpend : (handleConnection s deviceId deviceName tok w).pendingRequests
      = s.pendingRequests.map (fun kv => (kv.1, resendUpdate deviceId kv.2)) := by
    simp [handleConnection, resendPendingRequestsToDevice]
  have hsent : (handleConnection s deviceId deviceName tok w).sentMessages
      = s.sentMessages
        ++ ((s.pendingRequests.filter
              (fun kv => !(decide (deviceId ∈ kv.2.notifiedDevices)))).map
            (fun kv => (w, OutMsg.inputRequired (payloadOf kv.2))))
        ++ [(w, OutMsg.handshakeAck)] := by
    simp [handleConnection, resendPendingRequestsToDevice]
  constructor
  · intro hnot
    constructor
    · rw [hpend, alGet_mapVal, hk]
      simp [resendUpdate, hnot]
    · rw [hsent]
      have hmem : (k, req) ∈ s.pendingRequests := alGet_mem hk
      have hmf : (k, req) ∈ s.pendingRequests.filter
          (fun kv => !(decide (deviceId ∈ kv.2.notifiedDevices))) :=
        List.mem_filter.mpr ⟨hmem, by simp [hnot]⟩
      exact List.mem_append.mpr (Or.inl (List.mem_append.mpr (Or.inr
        (List.mem_map.mpr ⟨(k, req), hmf, rfl⟩))))
  · intro hin
    constructor
    · rw [hpend, alGet_mapVal, hk]
      simp [resendUpdate, hin]
    · rw [hsent]
      have hempty : ((s.pendingRequests.filter
            (fun kv => !(decide (deviceId ∈ kv.2.notifiedDevices)))).map
          (fun kv => (w, OutMsg.inputRequired (payloadOf kv.2)))).filter
            (fun m => decide (msgSessionId m.2 = some k)) = [] := by
        rw [List.filter_eq_nil]
        intro m hm
        obtain ⟨kv, hkvf, hkm⟩ := List.mem_map.mp hm
        obtain ⟨hkv, hkvcond⟩ := List.mem_filter.mp hkvf
        have hsid : kv.2.sessionId = kv.1 := hwf kv hkv
        rw [← hkm]
        simp only [msgSessionId, payloadOf, hsid, decide_eq_true_eq, Option.some.injEq,
          Bool.not_eq_true]
        intro he
        have hkv' : (k, kv.2) ∈ s.pendingRequests := by
          rw [← he]
          simpa using hkv
        have hget : alGet k s.pendingRequests = some kv.2 := alGet_of_mem_nodup hnd hkv'
        rw [hk] at hget
        have hreq : req = kv.2 := Option.some.injEq .. ▸ hget
        rw [← hreq] at hkvcond
        simp [hin] at hkvcond
      rw [msgCountFor, msgCountFor, List.filter_append, List.filter_append, hempty]
      have hack : List.filter (fun m => decide (msgSessionId m.2 = some k))
          [(w, OutMsg.handshakeAck)] = [] := by
        simp [msgSessionId]
      rw [hack]
      simp

/-- Witness for C6: the device of `c6State` reconnects; request r2 (whose
notified set lacks the device) is redelivered and updated. -/
theorem reconnect_redelivers_unnotified_witness :
    (∀ kv ∈ c6State.pendingRequests, kv.2.sessionId = kv.1) ∧
    (c6State.pendingRequests.map Prod.fst).Nodup ∧
    alGet ("r2") c6State.pendingRequests = some c6Req2 ∧
    ((("deviceA") ∉ c6Req2.notifiedDevices →
       alGet ("r2") (handleConnection c6State ("deviceA") ("Device A") none 2).pendingRequests
         = some { c6Req2 with notifiedDevices := c6Req2.notifiedDevices ++ [("deviceA")] } ∧
       (2, OutMsg.inputRequired (payloadOf c6Req2))
         ∈ (handleConnection c6State ("deviceA") ("Device A") none 2).sentMessages) ∧
     (("deviceA") ∈ c6Req2.notifiedDevices →
       alGet ("r2") (handleConnection c6State ("deviceA") ("Device A") none 2).pendingRequests
         = some c6Req2 ∧
       msgCountFor ("r2") (handleConnection c6State ("deviceA") ("Device A") none 2).sentMessages
         = msgCountFor ("r2") c6State.sentMessages)) :=
  ⟨by decide, by decide, by decide,
   reconnect_redelivers_unnotified c6State ("deviceA") ("Device A") none 2 ("r2") c6Req2
     (by decide) (by decide) (by decide)⟩

/-- A broker state with no connected device, one stored push token, and an
armed deadline timer for request r9. -/
def pushState : BrokerState :=
  { emptyState with
      deviceApnsTokens := [("deviceB", "tokenB")]
      timersArmed := ["r9"] }

/-- C7: the deadline is the caller-supplied timeout when one is given and the
configured `inputTimeoutMs` otherwise; the configured value defaults to
30 minutes (1 800 000 ms) and a (non-zero) configured minute count overrides
it; and when the deadline timer fires while still armed it removes the pending
entry, disarms itself, and rejects the continuation with a timeout failure. -/
theorem deadline_expiry_rejects_with_timeout (s : BrokerState)
    (providerSend : String → ApnsSendResult)
    (projectTag prompt : String) (options : List String) (inputType : InputType)
    (sessionId : String) (t : Nat) (id : String) (m : Nat)
    (htok : s.deviceApnsTokens ≠ [])
    (harmed : id ∈ s.timersArmed)
    (hm : m ≠ 0) :
    (requestMobileInput s providerSend projectTag prompt options inputType
        (some t) sessionId).2 = RequestOutcome.started sessionId t ∧
    (requestMobileInput s providerSend projectTag prompt options inputType
        none sessionId).2 = RequestOutcome.started sessionId s.inputTimeoutMs ∧
    computeInputTimeoutMs none = 30 * 60 * 1000 ∧
    computeInputTimeoutMs (some m) = m * 60 * 1000 ∧
    alGet id (fireTimeout s id).pendingRequests = none ∧
    id ∉ (fireTimeout s id).timersArmed ∧
    (fireTimeout s id).settlements
        = s.settlements ++ [(id, Settlement.rejected RejectReason.timeout)] := by
  have hlen : 0 < s.deviceApnsTokens.length := List.length_pos.mpr htok
  refine ⟨?_, ?_, rfl, ?_, ?_, ?_, ?_⟩
  · simp [requestMobileInput, hlen]
  · simp [requestMobileInput, hlen]
  · simp [computeInputTimeoutMs, hm]
  · simpa [fireTimeout, harmed] using alGet_alDelete_self id s.pendingRequests
  · simpa [fireTimeout, harmed] using mem_filter_ne_self id s.timersArmed
  · simp [fireTimeout, harmed]

/-- Witness for C7 at the concrete state `pushState`. -/
theorem deadline_expiry_rejects_with_timeout_witness :
    pushState.deviceApnsTokens ≠ [] ∧
    ("r9") ∈ pushState.timersArmed ∧
    (5 : Nat) ≠ 0 ∧
    ((requestMobileInput pushState (fun _ => ApnsSendResult.ok 0) ("proj") ("ask")
        [] InputType.text (some 1000) ("s1")).2 = RequestOutcome.started ("s1") 1000 ∧
     (requestMobileInput pushState (fun _ => ApnsSendResult.ok 0) ("proj") ("ask")
        [] InputType.text none ("s1")).2
        = RequestOutcome.started ("s1") pushState.inputTimeoutMs ∧
     computeInputTimeoutMs none = 30 * 60 * 1000 ∧
     computeInputTimeoutMs (some 5) = 5 * 60 * 1000 ∧
     alGet ("r9") (fireTimeout pushState ("r9")).pendingRequests = none ∧
     ("r9") ∉ (fireTimeout pushState ("r9")).timersArmed ∧
     (fireTimeout pushState ("r9")).settlements
        = pushState.settlements ++ [(("r9"), Settlement.rejected RejectReason.timeout)]) :=
  ⟨by decide, by decide, by decide,
   deadline_expiry_rejects_with_timeout pushState (fun _ => ApnsSendResult.ok 0)
     ("proj") ("ask") [] InputType.text ("s1") 1000 ("r9") 5
     (by decide) (by decide) (by decide)⟩

/-- C10: with at least one stored push token but no initialized push provider
and no open channel, `requestMobileInput` does not raise the no-recipients
error: it installs a pending entry with empty notified-live and notified-push
sets, arms the deadline timer, and performs no WebSocket send and no push
attempt — nothing is delivered, so only expiry, cancellation or a later
(re)connect can complete the request. -/
theorem requestInput_pending_without_delivery (s : BrokerState)
    (providerSend : String → ApnsSendResult)
    (projectTag prompt : String) (options : List String) (inputType : InputType)
    (timeoutMs : Option Nat) (sessionId : String)
    (h1 : getConnectedDeviceCount s = 0)
    (h2 : s.deviceApnsTokens ≠ [])
    (h3 : s.apnsProvider = false) :
    (requestMobileInput s providerSend projectTag prompt options inputType
        timeoutMs sessionId).2
      = RequestOutcome.started sessionId (timeoutMs.getD s.inputTimeoutMs) ∧
    (∃ r, alGet sessionId (requestMobileInput s providerSend projectTag prompt options
        inputType timeoutMs sessionId).1.pendingRequests = some r ∧
       r.notifiedDevices = [] ∧ r.pushedViaApns = []) ∧
    (requestMobileInput s providerSend projectTag prompt options inputType
        timeoutMs sessionId).1.sentMessages = s.sentMessages ∧
    (requestMobileInput s providerSend projectTag prompt options inputType
        timeoutMs sessionId).1.pushAttempts = s.pushAttempts ∧
    (requestMobileInput s providerSend projectTag prompt options inputType
        timeoutMs sessionId).1.settlements = s.settlements ∧
    sessionId ∈ (requestMobileInput s providerSend projectTag prompt options inputType
        timeoutMs sessionId).1.timersArmed := by
  have hlen : 0 < s.deviceApnsTokens.length := List.length_pos.mpr h2
  have hlive : s.clients.filter (fun kv => kv.2.wsOpen) = [] := by
    have := h1
    simpa [getConnectedDeviceCount, List.length_eq_zero] using this
  refine ⟨?_, ?_, ?_, ?_, ?_, ?_⟩
  · simp [requestMobileInput, hlen]
  · simp [requestMobileInput, hlen, hlive, notifyInputRequired,
      sendApnsPushToDisconnectedDevices, h3, alGet_alSet_self]
  · simp [requestMobileInput, hlen, hlive, notifyInputRequired]
  · simp [requestMobileInput, hlen, sendApnsPushToDisconnectedDevices, h3]
  · simp [requestMobileInput, hlen]
  · simp [requestMobileInput, hlen]

/-- Witness for C10 at the concrete state `pushState`. -/
theorem requestInput_pending_without_delivery_witness :
    getConnectedDeviceCount pushState = 0 ∧
    pushState.deviceApnsTokens ≠ [] ∧
    pushState.apnsProvider = false ∧
    ((requestMobileInput pushState (fun _ => ApnsSendResult.ok 0) ("proj") ("ask")
        [] InputType.text none ("s1")).2
      = RequestOutcome.started ("s1") (Option.getD none pushState.inputTimeoutMs) ∧
     (∃ r, alGet ("s1") (requestMobileInput pushState (fun _ => ApnsSendResult.ok 0)
        ("proj") ("ask") [] InputType.text none ("s1")).1.pendingRequests = some r ∧
       r.notifiedDevices = [] ∧ r.pushedViaApns = []) ∧
     (requestMobileInput pushState (fun _ => ApnsSendResult.ok 0) ("proj") ("ask")
        [] InputType.text none ("s1")).1.sentMessages = pushState.sentMessages ∧
     (requestMobileInput pushState (fun _ => ApnsSendResult.ok 0) ("proj") ("ask")
        [] InputType.text none ("s1")).1.pushAttempts = pushState.pushAttempts ∧
     (requestMobileInput pushState (fun _ => ApnsSendResult.ok 0) ("proj") ("ask")
        [] InputType.text none ("s1")).1.settlements = pushState.settlements ∧
     ("s1") ∈ (requestMobileInput pushState (fun _ => ApnsSendResult.ok 0) ("proj") ("ask")
        [] InputType.text none ("s1")).1.timersArmed) :=
  ⟨by decide, by decide, rfl,
   requestInput_pending_without_delivery pushState (fun _ => ApnsSendResult.ok 0)
     ("proj") ("ask") [] InputType.text none ("s1")
     (by decide) (by decide) rfl⟩

/-- The push fan-out loop only appends to the attempts log; the appended
attempts form a sublist of the token entries iterated, each one for a device
without an open channel. -/
theorem pushFold_attempts (s : BrokerState) (providerSend : String → ApnsSendResult) :
    ∀ (l : List (String × String)) (r : PendingInputRequest) (a : List (String × String)),
      ∃ nw, (l.foldl (pushStep s providerSend) (r, a)).2 = a ++ nw ∧
        nw.Sublist l ∧ ∀ kv ∈ nw, deviceIsConnected s kv.1 = false := by
  intro l
  induction l with
  | nil =>
    intro r a
    exact ⟨[], by simp, List.nil_sublist _, by simp⟩
  | cons hd rest ih =>
    intro r a
    simp only [List.foldl_cons]
    cases hc : (!(deviceIsConnected s hd.1) && !(decide (hd.1 ∈ r.pushedViaApns))) with
    | false =>
      have hstep : pushStep s providerSend (r, a) hd = (r, a) := by
        simp [pushStep, hc]
      rw [hstep]
      obtain ⟨nw, h1, h2, h3⟩ := ih r a
      exact ⟨nw, h1, h2.cons hd, h3⟩
    | true =>
      have hconn : deviceIsConnected s hd.1 = false := by
        have h' := hc
        simp only [Bool.and_eq_true, Bool.not_eq_true'] at h'
        exact h'.1
      have hstep : pushStep s providerSend (r, a) hd
          = ((if sendApnsPush s.apnsProvider s.bundleIdConfigured providerSend hd.2 then
                { r with pushedViaApns := r.pushedViaApns ++ [hd.1] }
              else r),
             a ++ [hd]) := by
        simp [pushStep, hc]
      rw [hstep]
      obtain ⟨nw, h1, h2, h3⟩ := ih _ (a ++ [hd])
      refine ⟨hd :: nw, ?_, h2.cons₂ hd, ?_⟩
      · rw [h1, List.append_assoc, List.singleton_append]
      · intro kv hkv
        rcases List.mem_cons.mp hkv with he | hm
        · rw [he]; exact hconn
        · exact h3 kv hm

/-- Every token entry for a disconnected device not yet in the pushed set is
attempted, regardless of how the sends for other devices fail. -/
theorem pushFold_mem_attempts (s : BrokerState) (providerSend : String → ApnsSendResult) :
    ∀ (l : List (String × String)), (l.map Prod.fst).Nodup →
      ∀ (r : PendingInputRequest) (a : List (String × String)) (kv : String × String),
        kv ∈ l → deviceIsConnected s kv.1 = false → kv.1 ∉ r.pushedViaApns →
        kv ∈ (l.foldl (pushStep s providerSend) (r, a)).2 := by
  intro l
  induction l with
  | nil =>
    intro _ r a kv h
    simp at h
  | cons hd rest ih =>
    intro hnd r a kv hmem hconn hnp
    simp only [List.map_cons, List.nodup_cons] at hnd
    simp only [List.foldl_cons]
    rcases List.mem_cons.mp hmem with heq | htl
    · subst heq
      have hc : (!(deviceIsConnected s kv.1) && !(decide (kv.1 ∈ r.pushedViaApns))) = true := by
        simp [hconn, hnp]
      have hstep : pushStep s providerSend (r, a) kv
          = ((if sendApnsPush s.apnsProvider s.bundleIdConfigured providerSend kv.2 then
                { r with pushedViaApns := r.pushedViaApns ++ [kv.1] }
              else r),
             a ++ [kv]) := by
        simp [pushStep, hc]
      rw [hstep]
      obtain ⟨nw, h1, _, _⟩ := pushFold_attempts s providerSend rest _ (a ++ [kv])
      rw [h1]
      simp
    · have hne : kv.1 ≠ hd.1 := by
        intro he
        exact hnd.1 (he ▸ List.mem_map.mpr ⟨kv, htl, rfl⟩)
      cases hc : (!(deviceIsConnected s hd.1) && !(decide (hd.1 ∈ r.pushedViaApns))) with
      | false =>
        have hstep : pushStep s providerSend (r, a) hd = (r, a) := by
          simp [pushStep, hc]
        rw [hstep]
        exact ih hnd.2 r a kv htl hconn hnp
      | true =>
        have hstep : pushStep s providerSend (r, a) hd
            = ((if sendApnsPush s.apnsProvider s.bundleIdConfigured providerSend hd.2 then
                  { r with pushedViaApns := r.pushedViaApns ++ [hd.1] }
                else r),
               a ++ [hd]) := by
          simp [pushStep, hc]
        rw [hstep]
        refine ih hnd.2 _ (a ++ [hd]) kv htl hconn ?_
        cases hs : sendApnsPush s.apnsProvider s.bundleIdConfigured providerSend hd.2 with
        | false => simpa [hs] using hnp
        | true => simp [hs, List.mem_append, hnp, hne]

/-- C8: the push fallback of one request invocation attempts each device at
most once, only devices with a stored token and no open channel are attempted,
every eligible device is attempted no matter how other sends fail (a failed
push never blocks fan-out), and the adapter converts every provider failure —
thrown error or non-empty failed list — to the boolean false rather than an
exception. -/
theorem pushFallback_once_per_device_and_isolated (s : BrokerState)
    (providerSend : String → ApnsSendResult) (req : PendingInputRequest)
    (hnd : (s.deviceApnsTokens.map Prod.fst).Nodup) :
    (∀ d : String,
        ((sendApnsPushToDisconnectedDevices s providerSend req).2.map Prod.fst).count d ≤ 1) ∧
    (∀ kv ∈ (sendApnsPushToDisconnectedDevices s providerSend req).2,
        kv ∈ s.deviceApnsTokens ∧ deviceIsConnected s kv.1 = false) ∧
    (∀ kv ∈ s.deviceApnsTokens, s.apnsProvider = true →
        deviceIsConnected s kv.1 = false → kv.1 ∉ req.pushedViaApns →
        kv ∈ (sendApnsPushToDisconnectedDevices s providerSend req).2) ∧
    (∀ t msg, providerSend t = ApnsSendResult.thrown msg →
        sendApnsPush s.apnsProvider s.bundleIdConfigured providerSend t = false) ∧
    (∀ t n, providerSend t = ApnsSendResult.ok n → 0 < n →
        sendApnsPush s.apnsProvider s.bundleIdConfigured providerSend t = false) := by
  have hfail1 : ∀ t msg, providerSend t = ApnsSendResult.thrown msg →
      sendApnsPush s.apnsProvider s.bundleIdConfigured providerSend t = false := by
    intro t msg hmsg
    cases hp : s.apnsProvider with
    | false => simp [sendApnsPush, hp]
    | true =>
      cases hb : s.bundleIdConfigured with
      | false => simp [sendApnsPush, hp, hb]
      | true => simp [sendApnsPush, hp, hb, hmsg]
  have hfail2 : ∀ t n, providerSend t = ApnsSendResult.ok n → 0 < n →
      sendApnsPush s.apnsProvider s.bundleIdConfigured providerSend t = false := by
    intro t n hn hpos
    cases hp : s.apnsProvider with
    | false => simp [sendApnsPush, hp]
    | true =>
      cases hb : s.bundleIdConfigured with
      | false => simp [sendApnsPush, hp, hb]
      | true => simp [sendApnsPush, hp, hb, hn, hpos]
  by_cases hp : s.apnsProvider = true
  · obtain ⟨nw, h1, h2, h3⟩ := pushFold_attempts s providerSend s.deviceApnsTokens req []
    have hatt : (sendApnsPushToDisconnectedDevices s providerSend req).2 = nw := by
      simp [sendApnsPushToDisconnectedDevices, hp, h1]
    refine ⟨?_, ?_, ?_, hfail1, hfail2⟩
    · intro d
      rw [hatt]
      exact le_trans ((h2.map Prod.fst).count_le d) (List.nodup_iff_count_le_one.mp hnd d)
    · intro kv hkv
      rw [hatt] at hkv
      exact ⟨h2.subset hkv, h3 kv hkv⟩
    · intro kv hkv _ hconn hnp
      have hin := pushFold_mem_attempts s providerSend s.deviceApnsTokens hnd req [] kv
        hkv hconn hnp
      simpa [sendApnsPushToDisconnectedDevices, hp] using hin
  · have hpf : s.apnsProvider = false := by simpa using hp
    refine ⟨?_, ?_, ?_, hfail1, hfail2⟩
    · intro d
      simp [sendApnsPushToDisconnectedDevices, hpf]
    · intro kv hkv
      simp [sendApnsPushToDisconnectedDevices, hpf] at hkv
    · intro kv _ hptrue
      exact absurd hptrue hp

/-- A broker state with an initialized push provider, a configured bundle id,
and two stored push tokens for disconnected devices. -/
def c8State : BrokerState :=
  { emptyState with
      apnsProvider := true
      bundleIdConfigured := true
      deviceApnsTokens := [("deviceB", "tokenB"), ("deviceC", "tokenC")] }

/-- A push-provider oracle that throws for deviceB's token and succeeds for
every other token. -/
def c8Send : String → ApnsSendResult :=
  fun t => if t = ("tokenB") then ApnsSendResult.thrown ("boom") else ApnsSendResult.ok 0

/-- Witness for C8 at the concrete state `c8State` with the partially failing
oracle `c8Send`. -/
theorem pushFallback_once_per_device_and_isolated_witness :
    (c8State.deviceApnsTokens.map Prod.fst).Nodup ∧
    ((∀ d : String,
        ((sendApnsPushToDisconnectedDevices c8State c8Send sampleReq).2.map Prod.fst).count d
          ≤ 1) ∧
     (∀ kv ∈ (sendApnsPushToDisconnectedDevices c8State c8Send sampleReq).2,
        kv ∈ c8State.deviceApnsTokens ∧ deviceIsConnected c8State kv.1 = false) ∧
     (∀ kv ∈ c8State.deviceApnsTokens, c8State.apnsProvider = true →
        deviceIsConnected c8State kv.1 = false → kv.1 ∉ sampleReq.pushedViaApns →
        kv ∈ (sendApnsPushToDisconnectedDevices c8State c8Send sampleReq).2) ∧
     (∀ t msg, c8Send t = ApnsSendResult.thrown msg →
        sendApnsPush c8State.apnsProvider c8State.bundleIdConfigured c8Send t = false) ∧
     (∀ t n, c8Send t = ApnsSendResult.ok n → 0 < n →
        sendApnsPush c8State.apnsProvider c8State.bundleIdConfigured c8Send t = false)) :=
  ⟨by decide,
   pushFallback_once_per_device_and_isolated c8State c8Send sampleReq (by decide)⟩

end Monitoring
